import Mathlib

/-!
Shallow embedding of the ProblemHunt Azure Functions backend: the JWT
authentication pipeline (`shared/auth.py`, `utils.py`) and the store-facing
request handlers (`handlers/*.py`, `WalletById/__init__.py`) that the
specification's claims concern. Machine strings stay strings; the PyJWT
compact-serialization parser and the HMAC primitive are abstract parameters
(`decode`, `mac`), since the claims are about control flow of the verifier,
not about cryptography. The document store is a record of lists standing for
the Cosmos/Supabase containers, and every handler returns the response, the
resulting store and the ordered list of store calls it issued.
-/

/-- Python `a or b` over two optional header values: `None` and the empty
string are falsy, anything else short-circuits. -/
def pyOrStr : Option String → Option String → Option String
  | some s, b => if s = "" then b else some s
  | none, b => b

/-- Helper for `pySplit`: walk the characters, accumulating the current
word reversed. -/
def pySplitAux : List Char → List Char → List String
  | [], cur => if cur = [] then [] else [String.mk cur.reverse]
  | c :: cs, cur =>
    if c.isWhitespace then
      if cur = [] then pySplitAux cs [] else String.mk cur.reverse :: pySplitAux cs []
    else pySplitAux cs (c :: cur)

/-- Python `str.split()` with no argument: split on runs of whitespace,
dropping empty pieces. -/
def pySplit (s : String) : List String :=
  pySplitAux s.data []

/-- Python `str.lower()` over the ASCII range. -/
def pyToLower (s : String) : String :=
  String.mk (s.data.map Char.toLower)

/-- Python `str.strip()`: drop whitespace from both ends. -/
def pyStrip (s : String) : String :=
  String.mk (((s.data.dropWhile Char.isWhitespace).reverse.dropWhile Char.isWhitespace).reverse)

/-- Python `str.startswith(p)`. -/
def pyStartsWith (s p : String) : Bool :=
  p.data.isPrefixOf s.data

/-- Fuel-indexed worker for `pyReplace`: replace non-overlapping occurrences
of `pat` left to right (the fuel is an upper bound on the characters
consumed, so it never runs out for a non-empty pattern). -/
def pyReplaceAux : Nat → List Char → List Char → List Char → List Char
  | 0, s, _, _ => s
  | _ + 1, [], _, _ => []
  | fuel + 1, c :: cs, pat, rep =>
    if pat.isPrefixOf (c :: cs) ∧ pat ≠ [] then
      rep ++ pyReplaceAux fuel ((c :: cs).drop pat.length) pat rep
    else c :: pyReplaceAux fuel cs pat rep

/-- Python `str.replace(pat, rep)` for a non-empty pattern: every
non-overlapping occurrence, scanned left to right. -/
def pyReplace (s pat rep : String) : String :=
  String.mk (pyReplaceAux (s.data.length + 1) s.data pat.data rep.data)

/-- Helper for `pySplitOnNl`: split at every separator, keeping empty pieces
as Python `str.split(sep)` does. -/
def splitOnCharAux (sep : Char) : List Char → List Char → List String
  | [], cur => [String.mk cur.reverse]
  | d :: ds, cur =>
    if d = sep then String.mk cur.reverse :: splitOnCharAux sep ds []
    else splitOnCharAux sep ds (d :: cur)

/-- Python `str.split(chr(10))`: split on newlines, keeping empty pieces. -/
def pySplitOnNl (s : String) : List String :=
  splitOnCharAux (Char.ofNat 10) s.data []

/-- Python list slicing `l[start:stop]`: negative indices count from the end,
and both bounds are clamped to the list. -/
def pySlice {α : Type} (l : List α) (start stop : Int) : List α :=
  let n : Int := l.length
  let s := if start < 0 then (start + n).toNat else min start.toNat l.length
  let e := if stop < 0 then (stop + n).toNat else min stop.toNat l.length
  (l.take e).drop s

/-- Python f-string rendering of an optional route parameter (`None` prints
as the string "None"). -/
def pyStr : Option String → String
  | none => "None"
  | some s => s

/-- Python truthiness filter on an optional string (`if not user_id`): `None`
and the empty string are falsy. -/
def truthyStr : Option String → Option String
  | some s => if s = "" then none else some s
  | none => none

/-- Python `dict.get(k)` over a header or route-parameter map. -/
def dictGet (l : List (String × String)) (k : String) : Option String :=
  l.lookup k

/-- Decoded JWT claim set: the two claims the code reads, `sub` and `exp`. -/
structure Payload where
  sub : Option String
  exp : Option Int
deriving DecidableEq, Repr

/-- A parsed JWT: the header algorithm, the claim set, the signing input
(the `header.payload` part of the compact serialization) and the signature. -/
structure Jwt where
  alg : Option String
  payload : Payload
  body : String
  sig : String
deriving DecidableEq, Repr

/-- Failure classes of PyJWT `jwt.decode`. -/
inductive JwtError
  | decodeError
  | invalidAlgorithm
  | invalidSignature
  | expiredSignature
deriving DecidableEq, Repr

/-- Message text PyJWT attaches to each failure class. -/
def JwtError.msg : JwtError → String
  | .decodeError => "Not enough segments"
  | .invalidAlgorithm => "The specified alg value is not allowed"
  | .invalidSignature => "Signature verification failed"
  | .expiredSignature => "Signature has expired"

/-- PyJWT `jwt.decode(token, secret, algorithms=algs)` with signature and
expiry verification, over an abstract compact-serialization parser `decode`
and HMAC `mac`. In PyJWT's order: an unparsable token fails first; then a
header algorithm that is absent, empty, or not in the allowed list; then a
signature differing from the MAC of the signing input under `secret`; then
an `exp` claim not strictly in the future. -/
def jwtDecode (decode : String → Option Jwt) (mac : String → String → String)
    (now : Int) (token secret : String) (algs : List String) : Except JwtError Payload :=
  match decode token with
  | none => .error .decodeError
  | some t =>
    match t.alg with
    | none => .error .invalidAlgorithm
    | some a =>
      if a = "" ∨ a ∉ algs then .error .invalidAlgorithm
      else if t.sig ≠ mac secret t.body then .error .invalidSignature
      else
        match t.payload.exp with
        | some e => if e ≤ now then .error .expiredSignature else .ok t.payload
        | none => .ok t.payload

/-- An HTTP request as the handlers see it: the header map and the route
parameters. -/
structure Request where
  headers : List (String × String)
  routeParams : List (String × String)
deriving DecidableEq, Repr

/-- Message of the AuthError raised by `get_jwt_secret` when the environment
variable is unset. -/
def secretNotSetMsg : String :=
  "SUPABASE_JWT_SECRET environment variable is not set. Please configure it in local.settings.json or Azure Function App settings."

/-- shared/auth.py `get_jwt_secret`: the SUPABASE_JWT_SECRET environment
variable, or an AuthError when it is unset or empty. -/
def get_jwt_secret (env : Option String) : Except String String :=
  match env with
  | none => .error secretNotSetMsg
  | some s => if s = "" then .error secretNotSetMsg else .ok s

/-- shared/auth.py `extract_token`: read the Authorization header, require
exactly two whitespace-separated parts with the first equal to "bearer"
case-insensitively, and return the second part. -/
def extract_token (req : Request) : Except String String :=
  match dictGet req.headers "Authorization" with
  | none => .error "Missing Authorization header"
  | some h =>
    if h = "" then .error "Missing Authorization header"
    else
      match pySplit h with
      | [p0, p1] =>
        if pyToLower p0 = "bearer" then .ok p1
        else .error "Invalid Authorization header format. Expected \x27Bearer <token>\x27"
      | _ => .error "Invalid Authorization header format. Expected \x27Bearer <token>\x27"

/-- shared/auth.py `validate_jwt`: fetch the secret (the AuthError raised when
it is missing falls into the generic `except Exception` clause and is wrapped
as a token-validation failure), run `jwt.decode` pinned to the HS256
algorithm, and map each PyJWT failure to its AuthError message. -/
def validate_jwt (decode : String → Option Jwt) (mac : String → String → String)
    (env : Option String) (now : Int) (token : String) : Except String Payload :=
  match get_jwt_secret env with
  | .error m => .error ("Token validation failed: " ++ m)
  | .ok secret =>
    match jwtDecode decode mac now token secret ["HS256"] with
    | .ok p => .ok p
    | .error .expiredSignature => .error "Token has expired"
    | .error e => .error ("Invalid token: " ++ e.msg)

/-- shared/auth.py `get_user_id_from_token`: the `sub` claim, or an AuthError
when it is absent or falsy. -/
def get_user_id_from_token (p : Payload) : Except String String :=
  match p.sub with
  | none => .error "User ID not found in token payload"
  | some u => if u = "" then .error "User ID not found in token payload" else .ok u

/-- shared/auth.py `authenticate_request`: extract the bearer token, validate
it, and pull out the user id, propagating the first AuthError. -/
def authenticate_request (decode : String → Option Jwt) (mac : String → String → String)
    (env : Option String) (now : Int) (req : Request) : Except String (String × Payload) :=
  match extract_token req with
  | .error m => .error m
  | .ok token =>
    match validate_jwt decode mac env now token with
    | .error m => .error m
    | .ok payload =>
      match get_user_id_from_token payload with
      | .error m => .error m
      | .ok uid => .ok (uid, payload)

/-- shared/auth.py `auth_required` (also the inline pattern of the
DeleteProblem/CreatePost entry points): run the wrapped handler under the
authenticated identity, or answer 401 carrying the AuthError's message. -/
def auth_required (decode : String → Option Jwt) (mac : String → String → String)
    (env : Option String) (now : Int) (req : Request)
    (handler : String → Payload → Nat × Option String) : Nat × Option String :=
  match authenticate_request decode mac env now req with
  | .ok (uid, p) => handler uid p
  | .error m => (401, some m)

/-- utils.py `get_authenticated_user_id`: best-effort identity extraction.
It returns `None` on a missing or empty header, on a header lacking the
case-sensitive prefix "Bearer ", on a missing or empty secret, and on any
decode failure; otherwise it returns the `sub` claim as stored (which may
itself be absent). The string handed to the verifier is the header with
every occurrence of "Bearer " removed and surrounding whitespace stripped. -/
def get_authenticated_user_id (decode : String → Option Jwt) (mac : String → String → String)
    (env : Option String) (now : Int) (req : Request) : Option String :=
  match pyOrStr (dictGet req.headers "Authorization") (dictGet req.headers "authorization") with
  | none => none
  | some h =>
    if h = "" then none
    else if ¬ pyStartsWith h "Bearer " then none
    else
      let token := pyStrip (pyReplace h "Bearer " "")
      match env with
      | none => none
      | some secret =>
        if secret = "" then none
        else
          match jwtDecode decode mac now token secret ["HS256"] with
          | .error _ => none
          | .ok p => p.sub

/-- utils.py `validate_required`: the error message listing the fields that
are missing or falsy in the JSON body, or nothing when all are present. -/
def validate_required (get : String → Option String) (fields : List String) : Option String :=
  let missing := fields.filter (fun f => match get f with | none => true | some v => v = "")
  if missing = [] then none
  else some ("Missing required fields: " ++ String.intercalate ", " missing)

/-- First run of decimal digits in a character list, for `parse_budget_value`. -/
def firstDigitRun : List Char → Option (List Char)
  | [] => none
  | c :: rest => if c.isDigit then some (c :: rest.takeWhile Char.isDigit) else firstDigitRun rest

/-- Decimal value of a digit run. -/
def digitsToInt (ds : List Char) : Int :=
  ds.foldl (fun n c => n * 10 + ((c.toNat : Int) - ('0'.toNat : Int))) 0

/-- utils.py `parse_budget_value`: the first run of decimal digits in the
budget string (regex search for an optional dollar sign then digits), or 0
when there is none. -/
def parse_budget_value (s : String) : Int :=
  match firstDigitRun s.data with
  | none => 0
  | some ds => digitsToInt ds

/-- Requirements input: either a JSON list of strings or one
newline-separated string. -/
inductive ReqField
  | str (s : String)
  | list (l : List String)
deriving DecidableEq, Repr

/-- utils.py `parse_requirements`: trim every entry and drop the empty ones,
splitting a string input on newlines first. -/
def parse_requirements : ReqField → List String
  | .list l => (l.map pyStrip).filter (fun r => r ≠ "")
  | .str s => ((pySplitOnNl s).map pyStrip).filter (fun r => r ≠ "")

/-- A stored problem document: the fields the handlers read or write. Fields
the code reads through `dict.get` with a default are optional. -/
structure Problem where
  id : String
  title : String
  description : String
  requirements : List String
  category : Option String
  budget : String
  budgetValue : Option Int
  upvotes : Option Int
  proposals : Option Int
  author : String
  authorId : Option String
  deadline : Option String
  createdAt : Option String
  updatedAt : Option String
deriving DecidableEq, Repr

/-- A stored upvote document; its id is "problemId-userId". -/
structure Upvote where
  id : String
  problemId : String
  userId : String
  createdAt : String
deriving DecidableEq, Repr

/-- A stored wallet row of the Supabase `wallets` table. -/
structure Wallet where
  id : String
  user_id : String
deriving DecidableEq, Repr

/-- The document store as the handlers see it: the problems and upvotes
containers and the wallets table. -/
structure Store where
  problems : List Problem
  upvotes : List Upvote
  wallets : List Wallet
deriving DecidableEq, Repr

/-- One store call, recorded so that theorems can count side effects. -/
inductive StoreOp
  | queryProblems
  | queryUpvotes
  | queryWallets
  | createProblem
  | createUpvote
  | replaceProblem
  | deleteProblem
  | deleteUpvote
  | deleteWallet
deriving DecidableEq, Repr

/-- A handler response: the HTTP status and the `error` field of the JSON
body, when there is one. -/
structure HResp where
  status : Nat
  error : Option String
deriving DecidableEq, Repr

/-- Handler outcome: response, resulting store, and the store calls issued,
in order. -/
abbrev HResult := HResp × Store × List StoreOp

/-- The handlers' query `SELECT * FROM c WHERE c.id = @id` over the problems
container (the route parameter may be absent, in which case nothing has an
id equal to it). -/
def queryProblemsById (store : Store) (pid : Option String) : List Problem :=
  store.problems.filter (fun p => some p.id == pid)

/-- The same point query over the upvotes container. -/
def queryUpvotesById (store : Store) (uid : String) : List Upvote :=
  store.upvotes.filter (fun u => u.id == uid)

/-- handlers/upvote_problem.py `handle`: authenticate, check the problem
exists, reject a duplicate upvote by the same caller with 409, otherwise
create the upvote record and increment the problem's upvote count. `ts`
stands for `get_timestamp()`. -/
def upvote_problem_handle (decode : String → Option Jwt) (mac : String → String → String)
    (env : Option String) (now : Int) (ts : String) (req : Request) (store : Store) : HResult :=
  let pid := dictGet req.routeParams "id"
  match truthyStr (get_authenticated_user_id decode mac env now req) with
  | none => (⟨401, some "Authentication required"⟩, store, [])
  | some uid =>
    match queryProblemsById store pid with
    | [] => (⟨404, some "Problem not found"⟩, store, [.queryProblems])
    | problem :: _ =>
      let upvoteId := pyStr pid ++ "-" ++ uid
      match queryUpvotesById store upvoteId with
      | _ :: _ =>
        (⟨409, some "You already upvoted this problem"⟩, store, [.queryProblems, .queryUpvotes])
      | [] =>
        let upvote : Upvote := ⟨upvoteId, pyStr pid, uid, ts⟩
        let store1 := { store with upvotes := store.upvotes ++ [upvote] }
        let problem' := { problem with upvotes := some (problem.upvotes.getD 0 + 1), updatedAt := some ts }
        let store2 := { store1 with
          problems := store1.problems.map (fun q => if q.id == problem.id then problem' else q) }
        (⟨200, none⟩, store2, [.queryProblems, .queryUpvotes, .createUpvote, .replaceProblem])

/-- handlers/remove_upvote.py `handle`: authenticate, require the upvote
record to exist, delete it, and clamp-decrement the problem's upvote count
when the problem is still present. -/
def remove_upvote_handle (decode : String → Option Jwt) (mac : String → String → String)
    (env : Option String) (now : Int) (ts : String) (req : Request) (store : Store) : HResult :=
  let pid := dictGet req.routeParams "id"
  match truthyStr (get_authenticated_user_id decode mac env now req) with
  | none => (⟨401, some "Authentication required"⟩, store, [])
  | some uid =>
    let upvoteId := pyStr pid ++ "-" ++ uid
    match queryUpvotesById store upvoteId with
    | [] => (⟨404, some "Upvote not found"⟩, store, [.queryUpvotes])
    | _ :: _ =>
      let store1 := { store with upvotes := store.upvotes.filter (fun u => u.id ≠ upvoteId) }
      match queryProblemsById store1 pid with
      | [] => (⟨200, none⟩, store1, [.queryUpvotes, .deleteUpvote, .queryProblems])
      | problem :: _ =>
        let problem' := { problem with
          upvotes := some (max 0 (problem.upvotes.getD 0 - 1)), updatedAt := some ts }
        let store2 := { store1 with
          problems := store1.problems.map (fun q => if q.id == problem.id then problem' else q) }
        (⟨200, none⟩, store2, [.queryUpvotes, .deleteUpvote, .queryProblems, .replaceProblem])

/-- JSON body of a create-problem request; a `some` field means the key is
present in the posted object. -/
structure CreateBody where
  title : Option String
  description : Option String
  category : Option String
  budget : Option String
  requirements : Option ReqField
  author : Option String
  deadline : Option String
deriving DecidableEq, Repr

/-- Field lookup used by `validate_required` over a create body. -/
def CreateBody.get (d : CreateBody) : String → Option String :=
  fun f =>
    if f = "title" then d.title
    else if f = "description" then d.description
    else if f = "category" then d.category
    else if f = "budget" then d.budget
    else none

/-- handlers/create_problem.py category allow-list. -/
def validCategories : List String :=
  ["AI/ML", "Web3", "Finance", "Governance", "Trading", "Infrastructure"]

/-- handlers/create_problem.py `handle`: authenticate, parse the JSON body
(`body?` is none when `get_json` raises), validate the required fields and
the category, then build and persist the problem document. `newId` stands
for `generate_id()` and `ts` for `get_timestamp()`. -/
def create_problem_handle (decode : String → Option Jwt) (mac : String → String → String)
    (env : Option String) (now : Int) (newId ts : String)
    (req : Request) (body? : Option CreateBody) (store : Store) : HResult :=
  match truthyStr (get_authenticated_user_id decode mac env now req) with
  | none => (⟨401, some "Authentication required"⟩, store, [])
  | some uid =>
    match body? with
    | none => (⟨400, some "Invalid JSON"⟩, store, [])
    | some data =>
      match validate_required data.get ["title", "description", "category", "budget"] with
      | some msg => (⟨400, some msg⟩, store, [])
      | none =>
        if (data.category.getD "") ∉ validCategories then
          (⟨400, some "Invalid category"⟩, store, [])
        else
          let problem : Problem :=
            { id := newId
              title := pyStrip (data.title.getD "")
              description := pyStrip (data.description.getD "")
              requirements := parse_requirements (data.requirements.getD (.list []))
              category := data.category
              budget := data.budget.getD ""
              budgetValue := some (parse_budget_value (data.budget.getD ""))
              upvotes := some 0
              proposals := some 0
              author := data.author.getD "Anonymous User"
              authorId := some uid
              deadline := data.deadline
              createdAt := some ts
              updatedAt := some ts }
          (⟨201, none⟩, { store with problems := store.problems ++ [problem] }, [.createProblem])

/-- JSON body of an update-problem request; a `some` field means the key is
present. The deadline field is read with `updates.get`, whose value may
itself be null, hence the nested option. -/
structure UpdateBody where
  title : Option String
  description : Option String
  category : Option String
  budget : Option String
  requirements : Option ReqField
  deadline : Option (Option String)
deriving DecidableEq, Repr

/-- handlers/update_problem.py `handle`: authenticate, parse the body, fetch
the problem (404 when absent), refuse a caller other than the stored author
with 403, otherwise apply the present fields and replace the document. -/
def update_problem_handle (decode : String → Option Jwt) (mac : String → String → String)
    (env : Option String) (now : Int) (ts : String)
    (req : Request) (body? : Option UpdateBody) (store : Store) : HResult :=
  let pid := dictGet req.routeParams "id"
  match truthyStr (get_authenticated_user_id decode mac env now req) with
  | none => (⟨401, some "Authentication required"⟩, store, [])
  | some uid =>
    match body? with
    | none => (⟨400, some "Invalid JSON"⟩, store, [])
    | some updates =>
      match queryProblemsById store pid with
      | [] => (⟨404, some "Problem not found"⟩, store, [.queryProblems])
      | problem :: _ =>
        if problem.authorId ≠ some uid then
          (⟨403, some "You can only edit your own problems"⟩, store, [.queryProblems])
        else
          let p1 := match updates.title with
            | some t => { problem with title := pyStrip t } | none => problem
          let p2 := match updates.description with
            | some d => { p1 with description := pyStrip d } | none => p1
          let p3 := match updates.category with
            | some c => { p2 with category := some c } | none => p2
          let p4 := match updates.budget with
            | some b => { p3 with budget := b, budgetValue := some (parse_budget_value b) }
            | none => p3
          let p5 := match updates.requirements with
            | some r => { p4 with requirements := parse_requirements r } | none => p4
          let p6 := match updates.deadline with
            | some d => { p5 with deadline := d } | none => p5
          let p7 := { p6 with updatedAt := some ts }
          let store' := { store with
            problems := store.problems.map (fun q => if q.id == problem.id then p7 else q) }
          (⟨200, none⟩, store', [.queryProblems, .replaceProblem])

/-- handlers/delete_problem.py `handle`: authenticate, fetch the problem
(404 when absent), refuse a caller other than the stored author with 403,
otherwise delete the document by id. -/
def delete_problem_handle (decode : String → Option Jwt) (mac : String → String → String)
    (env : Option String) (now : Int) (req : Request) (store : Store) : HResult :=
  let pid := dictGet req.routeParams "id"
  match truthyStr (get_authenticated_user_id decode mac env now req) with
  | none => (⟨401, some "Authentication required"⟩, store, [])
  | some uid =>
    match queryProblemsById store pid with
    | [] => (⟨404, some "Problem not found"⟩, store, [.queryProblems])
    | problem :: _ =>
      if problem.authorId ≠ some uid then
        (⟨403, some "You can only delete your own problems"⟩, store, [.queryProblems])
      else
        let store' := { store with problems := store.problems.filter (fun q => ¬ some q.id == pid) }
        (⟨200, none⟩, store', [.queryProblems, .deleteProblem])

/-- WalletById/__init__.py `main` (DELETE /api/user/wallets/{wallet_id}):
authenticate, require a non-empty wallet id, select by wallet id AND caller
id, answer 404 when that select is empty (whether the wallet is absent or
owned by someone else), otherwise delete the matching rows. -/
def wallet_by_id_main (decode : String → Option Jwt) (mac : String → String → String)
    (env : Option String) (now : Int) (req : Request) (store : Store) : HResult :=
  match truthyStr (get_authenticated_user_id decode mac env now req) with
  | none => (⟨401, some "Authentication required"⟩, store, [])
  | some uid =>
    let walletId := pyStrip ((dictGet req.routeParams "wallet_id").getD "")
    if walletId = "" then (⟨400, some "wallet_id is required"⟩, store, [])
    else
      match store.wallets.filter (fun w => w.id == walletId && w.user_id == uid) with
      | [] => (⟨404, some "Wallet not found or access denied"⟩, store, [.queryWallets])
      | _ :: _ =>
        let store' := { store with
          wallets := store.wallets.filter (fun w => ¬ (w.id == walletId && w.user_id == uid)) }
        (⟨200, none⟩, store', [.queryWallets, .deleteWallet])

/-- Query parameters of a listing request, already carried through Python
`int()` (a non-numeric string raises there and becomes a 500; not modelled). -/
structure ListParams where
  category : Option String
  sortBy : Option String
  budgetMin : Option Int
  budgetMax : Option Int
  limit : Option Int
  offset : Option Int
deriving DecidableEq, Repr

/-- Listing outcome: the served page, the total before pagination, and the
echoed limit and offset. -/
structure ListResult where
  problems : List Problem
  total : Nat
  limit : Int
  offset : Int
deriving DecidableEq, Repr

/-- Stable insertion into a descending-sorted list: an element goes after
every element with a key at least as large, which is how Python's stable
`sort(key=..., reverse=True)` orders ties. -/
def insertDesc {α β : Type} [LinearOrder β] (key : α → β) (x : α) : List α → List α
  | [] => [x]
  | y :: ys => if key x ≤ key y then y :: insertDesc key x ys else x :: y :: ys

/-- Python `list.sort(key=..., reverse=True)`: stable descending sort. -/
def sortDescBy {α β : Type} [LinearOrder β] (key : α → β) (l : List α) : List α :=
  l.foldl (fun acc x => insertDesc key x acc) []

/-- handlers/get_problems.py `handle`: filter by budget range and category,
sort by the requested key (upvotes by default), and serve the slice
[offset, offset+limit), with limit defaulting to 100 and offset to 0 and
neither one clamped. -/
def get_problems_handle (p : ListParams) (store : Store) : ListResult :=
  let category := p.category.getD "all"
  let sortBy := p.sortBy.getD "upvotes"
  let budgetMin := p.budgetMin.getD 0
  let budgetMax := p.budgetMax.getD 999999
  let lim := p.limit.getD 100
  let off := p.offset.getD 0
  let filtered := store.problems.filter
    (fun pr => decide (budgetMin ≤ pr.budgetValue.getD 0 ∧ pr.budgetValue.getD 0 ≤ budgetMax))
  let filtered := if category ≠ "all"
    then filtered.filter (fun pr => pr.category == some category) else filtered
  let sorted :=
    if sortBy = "newest" then sortDescBy (fun x => x.createdAt.getD "") filtered
    else if sortBy = "budget" then sortDescBy (fun x => x.budgetValue.getD 0) filtered
    else sortDescBy (fun x => x.upvotes.getD 0) filtered
  { problems := pySlice sorted off (off + lim)
    total := filtered.length
    limit := lim
    offset := off }

/-- handlers/get_user_problems.py `handle`: authenticate, select the caller's
problems, sort (newest by default) and paginate with the same unclamped
defaults (limit 100, offset 0). -/
def get_user_problems_handle (decode : String → Option Jwt) (mac : String → String → String)
    (env : Option String) (now : Int) (p : ListParams) (req : Request) (store : Store) :
    Except HResp ListResult :=
  match truthyStr (get_authenticated_user_id decode mac env now req) with
  | none => .error ⟨401, some "Authentication required"⟩
  | some uid =>
    let sortBy := p.sortBy.getD "newest"
    let lim := p.limit.getD 100
    let off := p.offset.getD 0
    let userProblems := store.problems.filter (fun pr => pr.authorId == some uid)
    let sorted :=
      if sortBy = "upvotes" then sortDescBy (fun x => x.upvotes.getD 0) userProblems
      else if sortBy = "budget" then sortDescBy (fun x => x.budgetValue.getD 0) userProblems
      else sortDescBy (fun x => x.createdAt.getD "") userProblems
    .ok { problems := pySlice sorted off (off + lim)
          total := userProblems.length
          limit := lim
          offset := off }

/-- Test MAC used by concrete witnesses: a distinct tag per (secret, body). -/
def wMac : String → String → String := fun secret body => "mac(" ++ secret ++ "," ++ body ++ ")"

/-- Claim set of the valid witness token for subject U1. -/
def wPayloadU1 : Payload := { sub := some "U1", exp := some 2000 }

/-- Valid witness token for subject U1, signed with secret "sec". -/
def wJwtU1 : Jwt := { alg := some "HS256", payload := wPayloadU1, body := "B1", sig := wMac "sec" "B1" }

/-- Claim set of the valid witness token for subject A. -/
def wPayloadA : Payload := { sub := some "A", exp := some 2000 }

/-- Valid witness token for subject A. -/
def wJwtA : Jwt := { alg := some "HS256", payload := wPayloadA, body := "BA", sig := wMac "sec" "BA" }

/-- Claim set of the valid witness token for subject B. -/
def wPayloadB : Payload := { sub := some "B", exp := some 2000 }

/-- Valid witness token for subject B. -/
def wJwtB : Jwt := { alg := some "HS256", payload := wPayloadB, body := "BB", sig := wMac "sec" "BB" }

/-- Claim set of the expired witness token (exp 500, before every test now). -/
def wPayloadExp : Payload := { sub := some "U1", exp := some 500 }

/-- Expired witness token with a valid signature. -/
def wJwtExpired : Jwt := { alg := some "HS256", payload := wPayloadExp, body := "BE", sig := wMac "sec" "BE" }

/-- Witness token whose header declares the algorithm "none". -/
def wJwtBadAlg : Jwt := { alg := some "none", payload := wPayloadU1, body := "BN", sig := wMac "sec" "BN" }

/-- Test compact-serialization parser: five known token strings parse, all
others are malformed. -/
def wDecode : String → Option Jwt := fun s =>
  if s = "tokU1" then some wJwtU1
  else if s = "tokA" then some wJwtA
  else if s = "tokB" then some wJwtB
  else if s = "tokExp" then some wJwtExpired
  else if s = "tokBadAlg" then some wJwtBadAlg
  else none

/-- Request bearing the valid U1 token. -/
def wReqU1 : Request := ⟨[("Authorization", "Bearer tokU1")], [("id", "p1")]⟩

/-- Request of caller A, with route parameters for problem p1 and wallet w1. -/
def wReqA : Request := ⟨[("Authorization", "Bearer tokA")], [("id", "p1"), ("wallet_id", "w1")]⟩

/-- Request of caller B, with the same route parameters. -/
def wReqB : Request := ⟨[("Authorization", "Bearer tokB")], [("id", "p1"), ("wallet_id", "w1")]⟩

/-- Request whose bearer prefix is lowercase. -/
def wReqLower : Request := ⟨[("Authorization", "bearer tokA")], []⟩

/-- Request bearing the expired token. -/
def wReqExp : Request := ⟨[("Authorization", "Bearer tokExp")], [("id", "p1")]⟩

/-- Request bearing an unparsable token. -/
def wReqBadTok : Request := ⟨[("Authorization", "Bearer nosuch")], []⟩

/-- Request without an Authorization header. -/
def wReqNoAuth : Request := ⟨[], [("id", "p1")]⟩

/-- Stored witness problem p1 owned by A with zero upvotes. -/
def wProblem1 : Problem :=
  { id := "p1", title := "T", description := "D", requirements := [],
    category := some "AI/ML", budget := "$50", budgetValue := some 50,
    upvotes := some 0, proposals := some 0, author := "A", authorId := some "A",
    deadline := none, createdAt := some "2024-01-01", updatedAt := some "2024-01-01" }

/-- Witness store: problem p1 (owner A), no upvotes, wallet w1 owned by A. -/
def wStore1 : Store := ⟨[wProblem1], [], [⟨"w1", "A"⟩]⟩

/-- Witness store in which A has already upvoted p1. -/
def wStoreDup : Store := ⟨[wProblem1], [⟨"p1-A", "p1", "A", "t0"⟩], []⟩

/-- Listing-witness problem with five upvotes. -/
def wProblemHigh : Problem := { wProblem1 with id := "pH", upvotes := some 5 }

/-- Listing-witness problem with three upvotes. -/
def wProblemLow : Problem := { wProblem1 with id := "pL", upvotes := some 3 }

/-- Witness store with two problems for the pagination claims. -/
def wStoreList : Store := ⟨[wProblemHigh, wProblemLow], [], []⟩

/-- A decode that yields a token with valid HS256 signature, future expiry. -/
lemma jwtDecode_ok (decode : String → Option Jwt) (mac : String → String → String)
    (now : Int) (tok secret : String) {t : Jwt}
    (hdecode : decode tok = some t) (halg : t.alg = some "HS256")
    (hsig : t.sig = mac secret t.body)
    (hexp : ∀ e, t.payload.exp = some e → now < e) :
    jwtDecode decode mac now tok secret ["HS256"] = .ok t.payload := by
  cases hE : t.payload.exp with
  | none => simp [jwtDecode, hdecode, halg, hsig, hE]
  | some e =>
    have hlt := hexp e hE
    simp [jwtDecode, hdecode, halg, hsig, hE, not_le.mpr hlt]

/-- The verifier accepts a well-formed, correctly signed, unexpired token. -/
lemma validate_jwt_ok (decode : String → Option Jwt) (mac : String → String → String)
    (now : Int) (tok : String) {secret : String} {t : Jwt}
    (hsecret : secret ≠ "")
    (hdecode : decode tok = some t) (halg : t.alg = some "HS256")
    (hsig : t.sig = mac secret t.body)
    (hexp : ∀ e, t.payload.exp = some e → now < e) :
    validate_jwt decode mac (some secret) now tok = .ok t.payload := by
  simp [validate_jwt, get_jwt_secret, hsecret,
    jwtDecode_ok decode mac now tok secret hdecode halg hsig hexp]

/-- C1: a token that is well-formed, signed with the configured secret,
unexpired and carrying a (non-empty) subject claim is accepted by the
composition `extract_token` / `validate_jwt` / `get_user_id_from_token` as
run by `authenticate_request`, which returns the embedded subject claim
value unchanged as the caller's identity. -/
theorem C1_valid_token_round_trip (decode : String → Option Jwt)
    (mac : String → String → String) (secret : String) (now : Int)
    (req : Request) (tok : String) (t : Jwt) (s : String)
    (hsecret : secret ≠ "")
    (hextract : extract_token req = .ok tok)
    (hdecode : decode tok = some t)
    (halg : t.alg = some "HS256")
    (hsig : t.sig = mac secret t.body)
    (hexp : ∀ e, t.payload.exp = some e → now < e)
    (hsub : t.payload.sub = some s)
    (hs : s ≠ "") :
    authenticate_request decode mac (some secret) now req = .ok (s, t.payload) := by
  simp [authenticate_request, hextract,
    validate_jwt_ok decode mac now tok hsecret hdecode halg hsig hexp,
    get_user_id_from_token, hsub, hs]

/-- Witness for C1: the concrete valid token of subject U1 authenticates and
returns exactly "U1". -/
theorem C1_valid_token_round_trip_witness :
    authenticate_request wDecode wMac (some "sec") 1000 wReqU1 = .ok ("U1", wPayloadU1) := by
  exact C1_valid_token_round_trip wDecode wMac "sec" 1000 wReqU1 "tokU1" wJwtU1 "U1"
    (by decide) (by rfl) (by rfl) (by rfl) (by rfl)
    (by intro e he; simp [wJwtU1, wPayloadU1] at he; omega)
    (by rfl) (by decide)

/-- Whether an Except result is a failure. -/
def exceptFails {e a : Type} : Except e a → Bool
  | .ok _ => false
  | .error _ => true

/-- A token whose header algorithm is absent or different from HS256 is
rejected by `jwt.decode` regardless of its signature. -/
lemma jwtDecode_bad_alg (decode : String → Option Jwt) (mac : String → String → String)
    (now : Int) (tok secret : String) {t : Jwt}
    (hdecode : decode tok = some t)
    (halg : ∀ a, t.alg = some a → a ≠ "HS256") :
    jwtDecode decode mac now tok secret ["HS256"] = .error .invalidAlgorithm := by
  cases hA : t.alg with
  | none => simp [jwtDecode, hdecode, hA]
  | some a =>
    have hne := halg a hA
    simp [jwtDecode, hdecode, hA, hne]

/-- C2: the verification call pins the algorithm list to ["HS256"], so a
well-formed token whose header declares a different algorithm, or none, is
rejected by `validate_jwt` — whatever its signature and whatever the secret
configuration — and `get_authenticated_user_id` yields no identity for any
request carrying such a token. -/
theorem C2_algorithm_pinned_to_hs256 (decode : String → Option Jwt)
    (mac : String → String → String) (env : Option String) (now : Int)
    (tok : String) (t : Jwt)
    (hdecode : decode tok = some t)
    (halg : ∀ a, t.alg = some a → a ≠ "HS256") :
    exceptFails (validate_jwt decode mac env now tok) = true ∧
    (∀ req h,
      pyOrStr (dictGet req.headers "Authorization") (dictGet req.headers "authorization") = some h →
      pyStartsWith h "Bearer " = true →
      pyStrip (pyReplace h "Bearer " "") = tok →
      get_authenticated_user_id decode mac env now req = none) := by
  constructor
  · match env with
    | none => rfl
    | some s =>
      by_cases hs : s = ""
      · subst hs; rfl
      · simp [exceptFails, validate_jwt, get_jwt_secret, hs,
          jwtDecode_bad_alg decode mac now tok s hdecode halg]
  · intro req h hhdr hpre htok
    have hne : h ≠ "" := by
      intro hemp
      rw [hemp] at hpre
      exact absurd hpre (by decide)
    unfold get_authenticated_user_id
    rw [hhdr]
    simp only [hne, hpre, htok, not_true, ite_false, if_false]
    all_goals
      cases env with
      | none => rfl
      | some s =>
        by_cases hs : s = ""
        · simp [hs]
        · simp [hs, jwtDecode_bad_alg decode mac now tok s hdecode halg]

/-- Witness for C2: the concrete token declaring algorithm "none" is refused
by the verifier even though its signature is the valid MAC, and the caller
presenting it gets no identity. -/
theorem C2_algorithm_pinned_to_hs256_witness :
    exceptFails (validate_jwt wDecode wMac (some "sec") 1000 "tokBadAlg") = true ∧
    get_authenticated_user_id wDecode wMac (some "sec") 1000
      ⟨[("Authorization", "Bearer tokBadAlg")], []⟩ = none := by
  have h := C2_algorithm_pinned_to_hs256 wDecode wMac (some "sec") 1000 "tokBadAlg" wJwtBadAlg
    (by rfl) (by intro a ha; simp [wJwtBadAlg] at ha; simp [ha.symm])
  exact ⟨h.1, h.2 ⟨[("Authorization", "Bearer tokBadAlg")], []⟩ "Bearer tokBadAlg"
    (by rfl) (by rfl) (by rfl)⟩

/-- A well-formed, correctly signed token whose expiry is not in the future
fails `jwt.decode` with the expiry class. -/
lemma jwtDecode_expired (decode : String → Option Jwt) (mac : String → String → String)
    (now : Int) (tok secret : String) {t : Jwt} {e : Int}
    (hdecode : decode tok = some t) (halg : t.alg = some "HS256")
    (hsig : t.sig = mac secret t.body)
    (hexp : t.payload.exp = some e) (hpast : e ≤ now) :
    jwtDecode decode mac now tok secret ["HS256"] = .error .expiredSignature := by
  simp [jwtDecode, hdecode, halg, hsig, hexp, hpast]

/-- The verifier maps the expiry failure to the dedicated expired message. -/
lemma validate_jwt_expired (decode : String → Option Jwt) (mac : String → String → String)
    (now : Int) (tok : String) {secret : String} {t : Jwt} {e : Int}
    (hsecret : secret ≠ "")
    (hdecode : decode tok = some t) (halg : t.alg = some "HS256")
    (hsig : t.sig = mac secret t.body)
    (hexp : t.payload.exp = some e) (hpast : e ≤ now) :
    validate_jwt decode mac (some secret) now tok = .error "Token has expired" := by
  simp [validate_jwt, get_jwt_secret, hsecret,
    jwtDecode_expired decode mac now tok secret hdecode halg hsig hexp hpast]

/-- When the token reaching `jwt.decode` fails, the best-effort identity
extraction yields nothing. -/
lemma get_auth_none_of_decode_error (decode : String → Option Jwt)
    (mac : String → String → String) (secret : String) (now : Int)
    (req : Request) (h : String) (err : JwtError)
    (hsecret : secret ≠ "")
    (hhdr : pyOrStr (dictGet req.headers "Authorization") (dictGet req.headers "authorization") = some h)
    (hpre : pyStartsWith h "Bearer " = true)
    (hjwt : jwtDecode decode mac now (pyStrip (pyReplace h "Bearer " "")) secret ["HS256"] = .error err) :
    get_authenticated_user_id decode mac (some secret) now req = none := by
  have hne : h ≠ "" := by
    intro hemp
    rw [hemp] at hpre
    exact absurd hpre (by decide)
  unfold get_authenticated_user_id
  rw [hhdr]
  simp [hne, hpre, hsecret, hjwt]

/-- The upvote handler answers 401 without touching the store whenever the
identity extraction fails. -/
lemma upvote_401_of_auth_none (decode : String → Option Jwt)
    (mac : String → String → String) (env : Option String) (now : Int)
    (ts : String) (req : Request) (store : Store)
    (hauth : truthyStr (get_authenticated_user_id decode mac env now req) = none) :
    upvote_problem_handle decode mac env now ts req store =
      (⟨401, some "Authentication required"⟩, store, []) := by
  unfold upvote_problem_handle
  rw [hauth]

/-- C4: a token whose expiry claim is in the past fails verification with the
expiry classification — the dedicated AuthError "Token has expired", and no
other — even though its signature is valid under the configured secret; the
auth-wrapped entry points surface it as 401 with that message, and the
upvote endpoint answers 401 for such a token with the store unchanged and
zero store calls issued. -/
theorem C4_expired_token_classification (decode : String → Option Jwt)
    (mac : String → String → String) (secret : String) (now : Int)
    (tok : String) (t : Jwt) (e : Int)
    (hsecret : secret ≠ "")
    (hdecode : decode tok = some t)
    (halg : t.alg = some "HS256")
    (hsig : t.sig = mac secret t.body)
    (hexp : t.payload.exp = some e)
    (hpast : e < now) :
    validate_jwt decode mac (some secret) now tok = .error "Token has expired" ∧
    (∀ req handler, extract_token req = .ok tok →
      auth_required decode mac (some secret) now req handler = (401, some "Token has expired")) ∧
    (∀ req h store ts,
      pyOrStr (dictGet req.headers "Authorization") (dictGet req.headers "authorization") = some h →
      pyStartsWith h "Bearer " = true →
      pyStrip (pyReplace h "Bearer " "") = tok →
      upvote_problem_handle decode mac (some secret) now ts req store =
        (⟨401, some "Authentication required"⟩, store, [])) := by
  have hval := validate_jwt_expired decode mac now tok hsecret hdecode halg hsig hexp hpast.le
  refine ⟨hval, ?_, ?_⟩
  · intro req handler hextract
    simp [auth_required, authenticate_request, hextract, hval]
  · intro req h store ts hhdr hpre htok
    have hjwt : jwtDecode decode mac now (pyStrip (pyReplace h "Bearer " "")) secret ["HS256"] =
        .error .expiredSignature := by
      rw [htok]
      exact jwtDecode_expired decode mac now tok secret hdecode halg hsig hexp hpast.le
    have hnone := get_auth_none_of_decode_error decode mac secret now req h _ hsecret hhdr hpre hjwt
    exact upvote_401_of_auth_none decode mac (some secret) now ts req store (by rw [hnone]; rfl)

/-- Witness for C4: the concrete token with expiry 500 presented at time
1000 is classified as expired, surfaces as a 401 with the expired message
through the auth wrapper, and the upvote endpoint performs no store call. -/
theorem C4_expired_token_classification_witness :
    validate_jwt wDecode wMac (some "sec") 1000 "tokExp" = .error "Token has expired" ∧
    auth_required wDecode wMac (some "sec") 1000 wReqExp (fun _ _ => (200, none)) =
      (401, some "Token has expired") ∧
    upvote_problem_handle wDecode wMac (some "sec") 1000 "ts1" wReqExp wStore1 =
      (⟨401, some "Authentication required"⟩, wStore1, []) := by
  have h := C4_expired_token_classification wDecode wMac "sec" 1000 "tokExp" wJwtExpired 500
    (by decide) (by rfl) (by rfl) (by rfl) (by rfl) (by decide)
  exact ⟨h.1, h.2.1 wReqExp (fun _ _ => (200, none)) (by rfl),
    h.2.2 wReqExp "Bearer tokExp" wStore1 "ts1" (by rfl) (by rfl) (by rfl)⟩

/-- C5 counterexample: the claim says every extraction accepts a header whose
first of exactly two tokens equals "Bearer" case-insensitively and passes the
second to the verifier. The request with header "bearer tokA" satisfies that
rule — `extract_token` accepts it and the verifier would return subject "A" —
yet `get_authenticated_user_id`, the extraction actually used by the cited
handlers, requires the case-sensitive prefix "Bearer " and returns no
identity for it. -/
theorem C5_counterexample :
    extract_token wReqLower = .ok "tokA" ∧
    validate_jwt wDecode wMac (some "sec") 1000 "tokA" = .ok wPayloadA ∧
    get_user_id_from_token wPayloadA = .ok "A" ∧
    get_authenticated_user_id wDecode wMac (some "sec") 1000 wReqLower = none ∧
    (none : Option String) ≠ some "A" := by
  exact ⟨rfl, rfl, rfl, rfl, by decide⟩

/-- C5 amended: `extract_token` implements exactly the claimed rule (missing
header or empty header → the missing-header error; anything but exactly two
whitespace-separated parts with the first case-insensitively "bearer" → the
malformed-header error; otherwise the second part is returned for
verification). `get_authenticated_user_id`, however, requires the
case-sensitive prefix "Bearer " — returning None, not a distinct
malformed-header error, whenever the prefix test fails — and what it passes
to the verifier is the header with every occurrence of "Bearer " removed and
surrounding whitespace stripped. -/
theorem C5_header_extraction_amended (decode : String → Option Jwt)
    (mac : String → String → String) (env : Option String) (now : Int) (req : Request) :
    (dictGet req.headers "Authorization" = none →
      extract_token req = .error "Missing Authorization header") ∧
    (dictGet req.headers "Authorization" = some "" →
      extract_token req = .error "Missing Authorization header") ∧
    (∀ h a b, dictGet req.headers "Authorization" = some h → h ≠ "" →
      pySplit h = [a, b] → pyToLower a = "bearer" →
      extract_token req = .ok b) ∧
    (∀ h, dictGet req.headers "Authorization" = some h → h ≠ "" →
      ((pySplit h).length ≠ 2 ∨ pyToLower ((pySplit h).headD "") ≠ "bearer") →
      extract_token req = .error "Invalid Authorization header format. Expected \x27Bearer <token>\x27") ∧
    (∀ h, pyOrStr (dictGet req.headers "Authorization") (dictGet req.headers "authorization") = some h →
      pyStartsWith h "Bearer " = false →
      get_authenticated_user_id decode mac env now req = none) ∧
    (∀ h secret, pyOrStr (dictGet req.headers "Authorization") (dictGet req.headers "authorization") = some h →
      pyStartsWith h "Bearer " = true → env = some secret → secret ≠ "" →
      get_authenticated_user_id decode mac env now req =
        (match jwtDecode decode mac now (pyStrip (pyReplace h "Bearer " "")) secret ["HS256"] with
         | .ok p => p.sub
         | .error _ => none)) := by
  refine ⟨?_, ?_, ?_, ?_, ?_, ?_⟩
  · intro hh
    simp [extract_token, hh]
  · intro hh
    simp [extract_token, hh]
  · intro h a b hh hne hsplit hlower
    simp [extract_token, hh, hne, hsplit, hlower]
  · intro h hh hne hbad
    cases hsplit : pySplit h with
    | nil => simp [extract_token, hh, hne, hsplit]
    | cons a rest =>
      cases rest with
      | nil => simp [extract_token, hh, hne, hsplit]
      | cons b rest2 =>
        cases rest2 with
        | nil =>
          have hlow : pyToLower a ≠ "bearer" := by
            rcases hbad with hlen | hhead
            · rw [hsplit] at hlen
              exact absurd rfl hlen
            · rw [hsplit] at hhead
              exact hhead
          simp [extract_token, hh, hne, hsplit, hlow]
        | cons c rest3 => simp [extract_token, hh, hne, hsplit]
  · intro h hh hfalse
    by_cases hne : h = ""
    · unfold get_authenticated_user_id
      rw [hh]
      simp [hne]
    · unfold get_authenticated_user_id
      rw [hh]
      simp [hne, hfalse]
  · intro h secret hh hpre henv hsecret
    have hne : h ≠ "" := by
      intro hemp
      rw [hemp] at hpre
      exact absurd hpre (by decide)
    subst henv
    unfold get_authenticated_user_id
    rw [hh]
    simp only [hne, hpre, hsecret, not_true, ite_false, if_false, if_neg]
    cases jwtDecode decode mac now (pyStrip (pyReplace h "Bearer " "")) secret ["HS256"] <;> rfl

/-- Witness for C5 amended: on the concrete requests, the well-formed header
is accepted with its second part, the missing header yields the
missing-header error, and the lowercase-prefix header yields no identity. -/
theorem C5_header_extraction_amended_witness :
    extract_token wReqU1 = .ok "tokU1" ∧
    extract_token wReqNoAuth = .error "Missing Authorization header" ∧
    get_authenticated_user_id wDecode wMac (some "sec") 1000 wReqLower = none := by
  refine ⟨?_, ?_, ?_⟩
  · exact (C5_header_extraction_amended wDecode wMac (some "sec") 1000 wReqU1).2.2.1
      "Bearer tokU1" "Bearer" "tokU1" (by rfl) (by decide) (by rfl) (by rfl)
  · exact (C5_header_extraction_amended wDecode wMac (some "sec") 1000 wReqNoAuth).1 (by rfl)
  · exact (C5_header_extraction_amended wDecode wMac (some "sec") 1000 wReqLower).2.2.2.2.1
      "bearer tokA" (by rfl) (by rfl)

/-- C7 counterexample: with no secret configured and an otherwise fully valid
token, the verifier raises an ordinary AuthError (the wrapped configuration
message), the auth wrapper converts it to a request-level 401, and
`get_authenticated_user_id` returns None — exactly the same observable
outcome as an invalid token under a configured secret — rather than any
distinct SecretNotConfigured configuration-error outcome. -/
theorem C7_counterexample :
    validate_jwt wDecode wMac none 1000 "tokU1" =
      .error ("Token validation failed: " ++ secretNotSetMsg) ∧
    auth_required wDecode wMac none 1000 wReqU1 (fun _ _ => (200, none)) = (401,
      some ("Token validation failed: " ++ secretNotSetMsg)) ∧
    get_authenticated_user_id wDecode wMac none 1000 wReqU1 = none ∧
    get_authenticated_user_id wDecode wMac (some "sec") 1000 wReqBadTok = none ∧
    (auth_required wDecode wMac none 1000 wReqU1 (fun _ _ => (200, none))).1 =
      (auth_required wDecode wMac (some "sec") 1000 wReqBadTok (fun _ _ => (200, none))).1 := by
  exact ⟨rfl, rfl, rfl, rfl, rfl⟩

/-- C7 amended: absence of the configured signing secret is surfaced as a
request-level authentication failure, not a distinct configuration-error
outcome: `get_jwt_secret` raises an AuthError which `validate_jwt` catches in
its generic clause and wraps as "Token validation failed: ...", the
auth-wrapped entry points answer 401 with that message for every request,
and `get_authenticated_user_id` returns None exactly as for an invalid
token. -/
theorem C7_missing_secret_is_request_level (decode : String → Option Jwt)
    (mac : String → String → String) (now : Int) (tok : String) (req : Request)
    (handler : String → Payload → Nat × Option String) :
    validate_jwt decode mac none now tok =
      .error ("Token validation failed: " ++ secretNotSetMsg) ∧
    (auth_required decode mac none now req handler).1 = 401 ∧
    get_authenticated_user_id decode mac none now req = none := by
  refine ⟨rfl, ?_, ?_⟩
  · unfold auth_required authenticate_request
    cases hx : extract_token req with
    | error m => rfl
    | ok t => rfl
  · unfold get_authenticated_user_id
    cases hh : pyOrStr (dictGet req.headers "Authorization") (dictGet req.headers "authorization") with
    | none => rfl
    | some h =>
      by_cases hne : h = ""
      · simp [hne]
      · by_cases hpre : pyStartsWith h "Bearer " = true
        · simp [hne, hpre]
        · simp [hne, hpre]

/-- C6: a request that fails authentication or input validation terminates
with its error before any store call: the upvote handler on an
authentication failure, and the create handler on an authentication failure,
a malformed JSON body, missing required fields, or an invalid category, all
return the error with the store unchanged and an empty list of store
operations. -/
theorem C6_fail_fast_before_store (decode : String → Option Jwt)
    (mac : String → String → String) (env : Option String) (now : Int)
    (newId ts : String) (req : Request) (store : Store) (body? : Option CreateBody) :
    (truthyStr (get_authenticated_user_id decode mac env now req) = none →
      upvote_problem_handle decode mac env now ts req store =
        (⟨401, some "Authentication required"⟩, store, []) ∧
      create_problem_handle decode mac env now newId ts req body? store =
        (⟨401, some "Authentication required"⟩, store, [])) ∧
    (∀ uid, truthyStr (get_authenticated_user_id decode mac env now req) = some uid →
      create_problem_handle decode mac env now newId ts req none store =
        (⟨400, some "Invalid JSON"⟩, store, [])) ∧
    (∀ uid data msg, truthyStr (get_authenticated_user_id decode mac env now req) = some uid →
      validate_required data.get ["title", "description", "category", "budget"] = some msg →
      create_problem_handle decode mac env now newId ts req (some data) store =
        (⟨400, some msg⟩, store, [])) ∧
    (∀ uid data, truthyStr (get_authenticated_user_id decode mac env now req) = some uid →
      validate_required data.get ["title", "description", "category", "budget"] = none →
      (data.category.getD "") ∉ validCategories →
      create_problem_handle decode mac env now newId ts req (some data) store =
        (⟨400, some "Invalid category"⟩, store, [])) := by
  refine ⟨?_, ?_, ?_, ?_⟩
  · intro hauth
    constructor
    · exact upvote_401_of_auth_none decode mac env now ts req store hauth
    · unfold create_problem_handle
      rw [hauth]
  · intro uid hauth
    unfold create_problem_handle
    rw [hauth]
  · intro uid data msg hauth hval
    unfold create_problem_handle
    rw [hauth]
    simp [hval]
  · intro uid data hauth hval hcat
    unfold create_problem_handle
    rw [hauth]
    simp [hval, hcat]

/-- Witness for C6: the concrete request without an Authorization header is
refused by both handlers with zero store calls, and the authenticated create
with a body missing its description fails validation with zero store calls. -/
theorem C6_fail_fast_before_store_witness :
    upvote_problem_handle wDecode wMac (some "sec") 1000 "ts1" wReqNoAuth wStore1 =
      (⟨401, some "Authentication required"⟩, wStore1, []) ∧
    create_problem_handle wDecode wMac (some "sec") 1000 "n1" "ts1" wReqNoAuth none wStore1 =
      (⟨401, some "Authentication required"⟩, wStore1, []) ∧
    create_problem_handle wDecode wMac (some "sec") 1000 "n1" "ts1" wReqA
        (some ⟨some "T2", none, some "AI/ML", some "$10", none, none, none⟩) wStore1 =
      (⟨400, some "Missing required fields: description"⟩, wStore1, []) := by
  refine ⟨?_, ?_, ?_⟩
  · exact ((C6_fail_fast_before_store wDecode wMac (some "sec") 1000 "n1" "ts1" wReqNoAuth
      wStore1 none).1 (by rfl)).1
  · exact ((C6_fail_fast_before_store wDecode wMac (some "sec") 1000 "n1" "ts1" wReqNoAuth
      wStore1 none).1 (by rfl)).2
  · exact (C6_fail_fast_before_store wDecode wMac (some "sec") 1000 "n1" "ts1" wReqA
      wStore1 none).2.2.1 "A" ⟨some "T2", none, some "AI/ML", some "$10", none, none, none⟩
      "Missing required fields: description" (by rfl) (by rfl)

/-- C3 counterexample: wallet w1 exists and belongs to A; the authenticated
caller B attempts the owner-gated wallet delete. The claim requires 403 for
an existing resource owned by someone else, but the handler selects by
wallet id AND caller id and answers 404 ("Wallet not found or access
denied"), leaving the store unchanged. -/
theorem C3_counterexample :
    wStore1.wallets = [⟨"w1", "A"⟩] ∧
    ("A" : String) ≠ "B" ∧
    get_authenticated_user_id wDecode wMac (some "sec") 1000 wReqB = some "B" ∧
    wallet_by_id_main wDecode wMac (some "sec") 1000 wReqB wStore1 =
      (⟨404, some "Wallet not found or access denied"⟩, wStore1, [.queryWallets]) ∧
    (404 : Nat) ≠ 403 := by
  exact ⟨by rfl, by decide, by rfl, by rfl, by decide⟩

/-- C3 amended: the problem update and problem delete handlers behave as
claimed — 404 when the problem does not exist, 403 with the store unchanged
when the caller differs from the stored author (compared only after
existence is confirmed), success when they are equal. The wallet delete,
however, filters by wallet id AND caller id in one query and answers 404
both when the wallet is absent and when it belongs to another user (the
store unchanged in either case), deleting only when the caller owns it. -/
theorem C3_owner_gated_mutations (decode : String → Option Jwt)
    (mac : String → String → String) (env : Option String) (now : Int)
    (ts : String) (req : Request) (store : Store) (uid : String) (updates : UpdateBody)
    (hauth : truthyStr (get_authenticated_user_id decode mac env now req) = some uid) :
    (queryProblemsById store (dictGet req.routeParams "id") = [] →
      update_problem_handle decode mac env now ts req (some updates) store =
        (⟨404, some "Problem not found"⟩, store, [.queryProblems]) ∧
      delete_problem_handle decode mac env now req store =
        (⟨404, some "Problem not found"⟩, store, [.queryProblems])) ∧
    (∀ p rest, queryProblemsById store (dictGet req.routeParams "id") = p :: rest →
      p.authorId ≠ some uid →
      update_problem_handle decode mac env now ts req (some updates) store =
        (⟨403, some "You can only edit your own problems"⟩, store, [.queryProblems]) ∧
      delete_problem_handle decode mac env now req store =
        (⟨403, some "You can only delete your own problems"⟩, store, [.queryProblems])) ∧
    (∀ p rest, queryProblemsById store (dictGet req.routeParams "id") = p :: rest →
      p.authorId = some uid →
      (update_problem_handle decode mac env now ts req (some updates) store).1.status = 200 ∧
      (update_problem_handle decode mac env now ts req (some updates) store).2.2 =
        [.queryProblems, .replaceProblem] ∧
      delete_problem_handle decode mac env now req store =
        (⟨200, none⟩,
         { store with problems := store.problems.filter (fun q => ¬ some q.id == dictGet req.routeParams "id") },
         [.queryProblems, .deleteProblem])) ∧
    (∀ wid, dictGet req.routeParams "wallet_id" = some wid → pyStrip wid ≠ "" →
      (store.wallets.filter (fun w => w.id == pyStrip wid && w.user_id == uid) = [] →
        wallet_by_id_main decode mac env now req store =
          (⟨404, some "Wallet not found or access denied"⟩, store, [.queryWallets])) ∧
      (∀ w ws, store.wallets.filter (fun w => w.id == pyStrip wid && w.user_id == uid) = w :: ws →
        wallet_by_id_main decode mac env now req store =
          (⟨200, none⟩,
           { store with wallets := store.wallets.filter (fun w => ¬ (w.id == pyStrip wid && w.user_id == uid)) },
           [.queryWallets, .deleteWallet]))) := by
  refine ⟨?_, ?_, ?_, ?_⟩
  · intro hq
    constructor
    · unfold update_problem_handle
      rw [hauth]
      simp [hq]
    · unfold delete_problem_handle
      rw [hauth]
      simp [hq]
  · intro p rest hq howner
    constructor
    · unfold update_problem_handle
      rw [hauth]
      simp [hq, howner]
    · unfold delete_problem_handle
      rw [hauth]
      simp [hq, howner]
  · intro p rest hq howner
    refine ⟨?_, ?_, ?_⟩
    · unfold update_problem_handle
      rw [hauth]
      simp [hq, howner]
    · unfold update_problem_handle
      rw [hauth]
      simp [hq, howner]
    · unfold delete_problem_handle
      rw [hauth]
      simp [hq, howner]
  · intro wid hwid hne
    constructor
    · intro hq
      unfold wallet_by_id_main
      rw [hauth]
      simp [hwid, hne, hq]
    · intro w ws hq
      unfold wallet_by_id_main
      rw [hauth]
      simp [hwid, hne, hq]

/-- Witness for C3 amended: caller B is refused problem p1 (owned by A) with
403 and the store unchanged; caller A deletes wallet w1 with 200; the wallet
query of caller B for w1 is empty so B gets the 404. -/
theorem C3_owner_gated_mutations_witness :
    update_problem_handle wDecode wMac (some "sec") 1000 "ts1" wReqB
        (some ⟨some "X", none, none, none, none, none⟩) wStore1 =
      (⟨403, some "You can only edit your own problems"⟩, wStore1, [.queryProblems]) ∧
    delete_problem_handle wDecode wMac (some "sec") 1000 wReqB wStore1 =
      (⟨403, some "You can only delete your own problems"⟩, wStore1, [.queryProblems]) ∧
    wallet_by_id_main wDecode wMac (some "sec") 1000 wReqB wStore1 =
      (⟨404, some "Wallet not found or access denied"⟩, wStore1, [.queryWallets]) ∧
    wallet_by_id_main wDecode wMac (some "sec") 1000 wReqA wStore1 =
      (⟨200, none⟩, { wStore1 with wallets := [] }, [.queryWallets, .deleteWallet]) := by
  refine ⟨?_, ?_, ?_, ?_⟩
  · exact ((C3_owner_gated_mutations wDecode wMac (some "sec") 1000 "ts1" wReqB wStore1 "B"
      ⟨some "X", none, none, none, none, none⟩ (by rfl)).2.1 wProblem1 [] (by rfl) (by decide)).1
  · exact ((C3_owner_gated_mutations wDecode wMac (some "sec") 1000 "ts1" wReqB wStore1 "B"
      ⟨some "X", none, none, none, none, none⟩ (by rfl)).2.1 wProblem1 [] (by rfl) (by decide)).2
  · exact ((C3_owner_gated_mutations wDecode wMac (some "sec") 1000 "ts1" wReqB wStore1 "B"
      ⟨some "X", none, none, none, none, none⟩ (by rfl)).2.2.2 "w1" (by rfl) (by decide)).1 (by rfl)
  · have h := ((C3_owner_gated_mutations wDecode wMac (some "sec") 1000 "ts1" wReqA wStore1 "A"
      ⟨some "X", none, none, none, none, none⟩ (by rfl)).2.2.2 "w1" (by rfl) (by decide)).2
      ⟨"w1", "A"⟩ [] (by rfl)
    exact h.trans (by rfl)

/-- C8: upvote uniqueness on the (problem, caller) pair. A second upvote by
the same authenticated caller on the same problem — the upvote record keyed
"problemId-userId" already exists — is answered 409 with the store (both the
original upvote record and the problem document) unchanged; and for any
request whatsoever, if at most one upvote record with a given key exists
before the handler runs, at most one exists afterwards. -/
theorem C8_upvote_uniqueness (decode : String → Option Jwt)
    (mac : String → String → String) (env : Option String) (now : Int)
    (ts : String) (req : Request) (store : Store) :
    (∀ uid pidS p rest uv uvs,
      truthyStr (get_authenticated_user_id decode mac env now req) = some uid →
      dictGet req.routeParams "id" = some pidS →
      queryProblemsById store (some pidS) = p :: rest →
      queryUpvotesById store (pidS ++ "-" ++ uid) = uv :: uvs →
      upvote_problem_handle decode mac env now ts req store =
        (⟨409, some "You already upvoted this problem"⟩, store, [.queryProblems, .queryUpvotes])) ∧
    (∀ idStr,
      (store.upvotes.filter (fun u => u.id == idStr)).length ≤ 1 →
      (((upvote_problem_handle decode mac env now ts req store).2.1.upvotes.filter
        (fun u => u.id == idStr)).length ≤ 1)) := by
  constructor
  · intro uid pidS p rest uv uvs hauth hpid hq hup
    unfold upvote_problem_handle
    rw [hauth]
    simp [hpid, hq, hup, pyStr]
  · intro idStr hcount
    cases hauth : truthyStr (get_authenticated_user_id decode mac env now req) with
    | none =>
      simp only [upvote_problem_handle, hauth]
      exact hcount
    | some uid =>
      cases hq : queryProblemsById store (dictGet req.routeParams "id") with
      | nil =>
        simp only [upvote_problem_handle, hauth, hq]
        exact hcount
      | cons p rest =>
        cases hup : queryUpvotesById store (pyStr (dictGet req.routeParams "id") ++ "-" ++ uid) with
        | cons uv uvs =>
          simp only [upvote_problem_handle, hauth, hq, hup]
          exact hcount
        | nil =>
          have hempty : store.upvotes.filter
              (fun u => u.id == pyStr (dictGet req.routeParams "id") ++ "-" ++ uid) = [] := hup
          simp only [upvote_problem_handle, hauth, hq, hup, List.filter_append, List.length_append]
          by_cases hid : idStr = pyStr (dictGet req.routeParams "id") ++ "-" ++ uid
          · rw [hid, hempty]
            simp
          · have hne : ((pyStr (dictGet req.routeParams "id") ++ "-" ++ uid) == idStr) = false := by
              exact beq_false_of_ne (fun hh => hid hh.symm)
            simp [hne]
            simpa using hcount

/-- Witness for C8: caller A, who has already upvoted p1, tries again and
gets 409 with the store unchanged. -/
theorem C8_upvote_uniqueness_witness :
    upvote_problem_handle wDecode wMac (some "sec") 1000 "ts1" wReqA wStoreDup =
      (⟨409, some "You already upvoted this problem"⟩, wStoreDup, [.queryProblems, .queryUpvotes]) := by
  exact (C8_upvote_uniqueness wDecode wMac (some "sec") 1000 "ts1" wReqA wStoreDup).1
    "A" "p1" wProblem1 [] ⟨"p1-A", "p1", "A", "t0"⟩ [] (by rfl) (by rfl) (by rfl) (by rfl)

/-- Querying the problems container ignores the upvotes container. -/
lemma queryProblemsById_upvotes_irrel (store : Store) (ups : List Upvote) (pid : Option String) :
    queryProblemsById { store with upvotes := ups } pid = queryProblemsById store pid := rfl

/-- C10: a successful remove-upvote sets the problem's stored count to
max 0 (previous - 1) — so a count of zero, or an absent count field, stays
at zero — and the handler never makes any stored upvote count negative:
if every problem's count is non-negative before the call, it still is after,
on every control path. -/
theorem C10_upvote_count_never_negative (decode : String → Option Jwt)
    (mac : String → String → String) (env : Option String) (now : Int)
    (ts : String) (req : Request) (store : Store) :
    (∀ uid pidS p rest uv uvs,
      truthyStr (get_authenticated_user_id decode mac env now req) = some uid →
      dictGet req.routeParams "id" = some pidS →
      queryUpvotesById store (pidS ++ "-" ++ uid) = uv :: uvs →
      queryProblemsById store (some pidS) = p :: rest →
      remove_upvote_handle decode mac env now ts req store =
        (⟨200, none⟩,
         { store with
             upvotes := store.upvotes.filter (fun u => u.id ≠ pidS ++ "-" ++ uid),
             problems := store.problems.map (fun q => if q.id == p.id then { p with upvotes := some (max 0 (p.upvotes.getD 0 - 1)), updatedAt := some ts } else q) },
         [.queryUpvotes, .deleteUpvote, .queryProblems, .replaceProblem])) ∧
    ((∀ q ∈ store.problems, 0 ≤ q.upvotes.getD 0) →
      ∀ q ∈ (remove_upvote_handle decode mac env now ts req store).2.1.problems,
        0 ≤ q.upvotes.getD 0) := by
  constructor
  · intro uid pidS p rest uv uvs hauth hpid hup hq
    unfold remove_upvote_handle
    rw [hauth]
    simp only [hpid, pyStr, queryProblemsById_upvotes_irrel]
    simp [hup, hq]
  · intro hpos
    cases hauth : truthyStr (get_authenticated_user_id decode mac env now req) with
    | none =>
      simp only [remove_upvote_handle, hauth]
      exact hpos
    | some uid =>
      cases hup : queryUpvotesById store (pyStr (dictGet req.routeParams "id") ++ "-" ++ uid) with
      | nil =>
        simp only [remove_upvote_handle, hauth, hup]
        exact hpos
      | cons uv uvs =>
        cases hq : queryProblemsById store (dictGet req.routeParams "id") with
        | nil =>
          simp only [remove_upvote_handle, hauth, hup, queryProblemsById_upvotes_irrel, hq]
          exact hpos
        | cons p rest =>
          simp only [remove_upvote_handle, hauth, hup, queryProblemsById_upvotes_irrel, hq]
          intro q hmem
          rcases List.mem_map.mp hmem with ⟨q0, hq0, rfl⟩
          by_cases hidq : (q0.id == p.id) = true
          · simp [hidq]
          · simp only [hidq, if_false, ite_false]
            exact hpos q0 hq0

/-- Witness for C10: caller A removes the only upvote of p1, whose stored
count is 0; the resulting count is still 0, not -1. -/
theorem C10_upvote_count_never_negative_witness :
    remove_upvote_handle wDecode wMac (some "sec") 1000 "ts1" wReqA wStoreDup =
      (⟨200, none⟩,
       { wStoreDup with upvotes := [], problems := [{ wProblem1 with upvotes := some 0, updatedAt := some "ts1" }] },
       [.queryUpvotes, .deleteUpvote, .queryProblems, .replaceProblem]) := by
  have h := (C10_upvote_count_never_negative wDecode wMac (some "sec") 1000 "ts1" wReqA
    wStoreDup).1 "A" "p1" wProblem1 [] ⟨"p1-A", "p1", "A", "t0"⟩ []
    (by rfl) (by rfl) (by rfl) (by rfl)
  exact h.trans (by rfl)

/-- A Python slice starting at a non-negative offset serves at most `lim`
elements for a non-negative `lim`. -/
lemma pySlice_length_le {α : Type} (l : List α) (off lim : Int)
    (hoff : 0 ≤ off) (hlim : 0 ≤ lim) :
    (pySlice l off (off + lim)).length ≤ lim.toNat := by
  unfold pySlice
  have h1 : ¬ off < 0 := not_lt.mpr hoff
  have h2 : ¬ off + lim < 0 := by omega
  simp only [h1, h2, ite_false, if_false, List.length_drop, List.length_take]
  omega

/-- C9 counterexample: the listing handler's limit defaults to 100, not 10,
and nothing is clamped — limit=0 serves an empty page (not one item),
limit=1000 is echoed and used as is (not 100), and offset=-1 slices from the
end of the list (not from 0). Store: two problems, pH (5 upvotes) before pL
(3 upvotes) in the default sort. -/
theorem C9_counterexample :
    get_problems_handle ⟨none, none, none, none, some 0, none⟩ wStoreList = ⟨[], 2, 0, 0⟩ ∧
    ([] : List Problem) ≠ [wProblemHigh] ∧
    (get_problems_handle ⟨none, none, none, none, none, none⟩ wStoreList).limit = 100 ∧
    (100 : Int) ≠ 10 ∧
    (get_problems_handle ⟨none, none, none, none, some 1000, none⟩ wStoreList).limit = 1000 ∧
    (1000 : Int) ≠ 100 ∧
    (get_problems_handle ⟨none, none, none, none, none, some (-1)⟩ wStoreList).problems = [wProblemLow] ∧
    [wProblemLow] ≠ [wProblemHigh, wProblemLow] := by
  exact ⟨by rfl, by decide, by rfl, by decide, by rfl, by decide, by rfl, by decide⟩

/-- C9 amended: for every listing request the limit query parameter defaults
to 100 and the offset to 0, both echoed in the response without clamping;
the response total is the count before pagination (never more than the
collection size), and for non-negative offset and limit the served page
holds at most limit items — the same holds for the authenticated user
listing. -/
theorem C9_pagination_defaults (p : ListParams) (store : Store)
    (hoff : 0 ≤ p.offset.getD 0) (hlim : 0 ≤ p.limit.getD 100) :
    (get_problems_handle p store).limit = p.limit.getD 100 ∧
    (get_problems_handle p store).offset = p.offset.getD 0 ∧
    (get_problems_handle p store).total ≤ store.problems.length ∧
    (get_problems_handle p store).problems.length ≤ (p.limit.getD 100).toNat ∧
    (∀ decode mac env now req uid r,
      truthyStr (get_authenticated_user_id decode mac env now req) = some uid →
      get_user_problems_handle decode mac env now p req store = .ok r →
      r.limit = p.limit.getD 100 ∧ r.offset = p.offset.getD 0 ∧
      r.problems.length ≤ (p.limit.getD 100).toNat) := by
  refine ⟨rfl, rfl, ?_, ?_, ?_⟩
  · show (if p.category.getD "all" ≠ "all" then _ else _ : List Problem).length ≤ _
    split
    · exact le_trans (List.length_filter_le _ _) (List.length_filter_le _ _)
    · exact List.length_filter_le _ _
  · exact pySlice_length_le _ _ _ hoff hlim
  · intro decode mac env now req uid r hauth hr
    simp only [get_user_problems_handle, hauth, Except.ok.injEq] at hr
    subst hr
    exact ⟨rfl, rfl, pySlice_length_le _ _ _ hoff hlim⟩

/-- Witness for C9 amended: on the two-problem store with limit 7 and offset
1, the response echoes limit 7 and offset 1, the total is within bounds and
the page holds at most 7 items. -/
theorem C9_pagination_defaults_witness :
    (get_problems_handle ⟨none, none, none, none, some 7, some 1⟩ wStoreList).limit = 7 ∧
    (get_problems_handle ⟨none, none, none, none, some 7, some 1⟩ wStoreList).offset = 1 ∧
    (get_problems_handle ⟨none, none, none, none, some 7, some 1⟩ wStoreList).total ≤
      wStoreList.problems.length ∧
    (get_problems_handle ⟨none, none, none, none, some 7, some 1⟩ wStoreList).problems.length ≤
      (7 : Int).toNat := by
  have h := C9_pagination_defaults ⟨none, none, none, none, some 7, some 1⟩ wStoreList
    (by decide) (by decide)
  exact ⟨h.1, h.2.1, h.2.2.1, h.2.2.2.1⟩
